import Mathlib

/-
Verification of the tic-tac-toe engine in
src/library/src/tic_tac_toe/logic/models.py.

The Python module defines a StrEnum `Mark` (CROSS = "X", NAUGHT = "O"),
a frozen dataclass `Grid` holding a 9-character cell string, a `Move`
record, and a `GameState` class with derived properties
(curr_mark, game_not_started, tie, game_over, winner).

We embed cell strings as `List Char`.  The embedding follows the source
line by line, including its control flow; where the repository's code is
missing an operation that the spec describes, a separately named
definition is modelled from the spec and marked as such.
-/

namespace TicTacToe

/-- Mark is a StrEnum with two members, CROSS = "X" and NAUGHT = "O",
declared in that order (iteration over `Mark` visits CROSS first). -/
inductive Mark where
  | CROSS
  | NAUGHT
deriving DecidableEq, Repr

/-- The string value of each StrEnum member: "X" for CROSS, "O" for NAUGHT.
A StrEnum member compares and concatenates as this string. -/
def Mark.strValue : Mark → String
  | .CROSS => "X"
  | .NAUGHT => "O"

/-- The single character of a mark's string value. -/
def Mark.symbol : Mark → Char
  | .CROSS => 'X'
  | .NAUGHT => 'O'

/-- Mark.other as the source writes it:
`return Mark.CROSS if self == "Mark.NAUGHT" else Mark.NAUGHT`.
A StrEnum member equals a string exactly when its value ("X" or "O")
equals that string, so the comparison with the literal "Mark.NAUGHT"
is what is executed. -/
def Mark.other (m : Mark) : Mark :=
  if m.strValue = "Mark.NAUGHT" then Mark.CROSS else Mark.NAUGHT

/-- Iteration order of `for mark in Mark`: definition order of the members. -/
def marksInOrder : List Mark := [Mark.CROSS, Mark.NAUGHT]

/-- The module-level WINNING_PATTERNS tuple: eight 9-character strings of
question marks and dots, in source order (3 rows, 3 columns, 2 diagonals). -/
def WINNING_PATTERNS : List (List Char) :=
  ["???......".toList,
   "...???...".toList,
   "......???".toList,
   "?..?..?..".toList,
   ".?..?..?.".toList,
   "..?..?..?".toList,
   "?...?...?".toList,
   "..?.?.?..".toList]

/-- Grid is a frozen dataclass with a single field `cells`, a string that
defaults to nine spaces.  Embedded as a list of characters. -/
structure Grid where
  cells : List Char
deriving DecidableEq, Repr

/-- The default cell string `" " * 9`. -/
def defaultCells : List Char := List.replicate 9 ' '

/-- Grid.x_count: `self.cells.count("X")`. -/
def Grid.x_count (g : Grid) : Nat := g.cells.count 'X'

/-- Grid.o_count: `self.cells.count("O")`. -/
def Grid.o_count (g : Grid) : Nat := g.cells.count 'O'

/-- Grid.empty_count: `self.cells.count(" ")`. -/
def Grid.empty_count (g : Grid) : Nat := g.cells.count ' '

/-- Membership of a character in the regex class `[\sXO]`: Python `\s`
is the six whitespace characters, plus the literals X and O. -/
def regexCellOk (c : Char) : Bool :=
  c = ' ' || c = '\t' || c = '\n' || c = '\r' || c = '\x0b' || c = '\x0c'
    || c = 'X' || c = 'O'

/-- Whether `re.match(r"^[\sXO]{9}$", s)` succeeds: nine characters of the
class followed by the end of the string, or by a final newline (Python `$`
also matches just before a trailing newline). -/
def postInitRegexOk (s : List Char) : Bool :=
  (s.length == 9 && s.all regexCellOk) ||
  (s.length == 10 && (s.take 9).all regexCellOk && s.getLast? == some '\n')

/-- Error raised by the validation the source intends for Grid. -/
inductive GridError where
  | InvalidGrid
deriving DecidableEq, Repr

/-- Construction of a Grid as the source behaves.  The validation method is
written as `_post_init__`, but the dataclass machinery only ever invokes a
method named `__post_init__`; `_post_init__` is an ordinary method that is
never called, so construction stores the cells and always succeeds,
whatever the input. -/
def Grid.new (cells : List Char) : Except GridError Grid :=
  Except.ok ⟨cells⟩

/-- Modelled from the spec: `Grid.new` "fails with InvalidGrid if the input
length is not exactly 9 or contains a symbol outside \x7bempty, Cross,
Naught\x7d"; otherwise it succeeds.  This is the validation that the orphaned
`_post_init__` method was meant to perform. -/
def Grid.newSpec (cells : List Char) : Except GridError Grid :=
  if cells.length == 9 && cells.all (fun c => c == ' ' || c == 'X' || c == 'O')
  then Except.ok ⟨cells⟩
  else Except.error GridError.InvalidGrid

/-- GameState wraps a grid and a starting mark; the starting mark defaults
to `Mark('X')`, i.e. CROSS. -/
structure GameState where
  grid : Grid
  starting_mark : Mark
deriving DecidableEq, Repr

/-- The default starting mark, `Mark('X')`. -/
def defaultStartingMark : Mark := Mark.CROSS

/-- GameState.curr_mark:
`self.starting_mark if self.grid.x_count == self.grid.o_count else self.starting_mark.other`. -/
def GameState.curr_mark (s : GameState) : Mark :=
  if s.grid.x_count = s.grid.o_count then s.starting_mark else s.starting_mark.other

/-- GameState.game_not_started: `self.grid.empty_count == 9`. -/
def GameState.game_not_started (s : GameState) : Bool :=
  s.grid.empty_count == 9

/-- The call `pattern.replace("?", mark)`: every question mark becomes the
mark's one-character string value. -/
def replaceQ (pat : List Char) (m : Mark) : List Char :=
  pat.map (fun c => if c = '?' then m.symbol else c)

/-- Semantics of `re.match(p, s)` for a pattern of literal characters and
dots: the pattern must match a prefix of the string, a dot matching any
character except newline and every other character matching itself. -/
def reMatchDots : List Char → List Char → Bool
  | [], _ => true
  | _ :: _, [] => false
  | p :: ps, c :: cs =>
      (if p = '.' then c != '\n' else c == p) && reMatchDots ps cs

/-- The comprehension `[index.start() for index in re.finditer(r"\?", pattern)]`:
the positions of the question marks in the pattern. -/
def qIndices (pat : List Char) : List Nat :=
  (pat.enum.filter (fun ic => ic.2 == '?')).map (fun ic => ic.1)

/-- The body of `for mark in Mark:` inside GameState.winner.  The source's
`return []` sits inside the loop, directly after the `if`, so the first
mark either returns the winning cells (on a regex match) or returns the
empty list; later marks are never examined.  `none` means the loop ran to
completion without returning. -/
def innerMarkScan (cells pat : List Char) : List Mark → Option (List Nat)
  | [] => none
  | m :: _ =>
      if reMatchDots (replaceQ pat m) cells then some (qIndices pat)
      else some []

/-- The outer `for pattern in WINNING_PATTERNS:` loop of GameState.winner:
proceed to the next pattern only when the inner loop finished without
returning. -/
def winnerScan (cells : List Char) : List (List Char) → Option (List Nat)
  | [] => none
  | p :: ps =>
      match innerMarkScan cells p marksInOrder with
      | some r => some r
      | none => winnerScan cells ps

/-- GameState.winner as written.  Despite its `Mark | None` annotation, the
method returns a list of cell indices when the first examined pattern/mark
pair matches, the empty list when it does not, and would return None only
if both loops ran dry.  `some l` is a returned list l, `none` is Python's
implicit None. -/
def GameState.winner (s : GameState) : Option (List Nat) :=
  winnerScan s.grid.cells WINNING_PATTERNS

/-- GameState.tie: `self.winner is None and self.grid.empty_count == 0`.
A returned list, even the empty one, is not None. -/
def GameState.tie (s : GameState) : Bool :=
  s.winner.isNone && (s.grid.empty_count == 0)

/-- GameState.game_over: `self.winner is not None or self.tie`. -/
def GameState.game_over (s : GameState) : Bool :=
  s.winner.isSome || s.tie

/-- Move: a record of the mark placed, the cell index written, and the
states before and after the placement.  (The source decorates it with the
misspelled `@dataclass(Fronzen=True)`.) -/
structure Move where
  mark : Mark
  cell_index : Nat
  before_state : GameState
  after_state : GameState
deriving DecidableEq, Repr

namespace Spec

/-- Modelled from the spec: Mark.other "returns the opposite mark":
other(Cross) = Naught, other(Naught) = Cross. -/
def other : Mark → Mark
  | Mark.CROSS => Mark.NAUGHT
  | Mark.NAUGHT => Mark.CROSS

/-- The eight winning line index triples in the spec's fixed order:
rows 0-2/3-5/6-8, columns 0,3,6/1,4,7/2,5,8, diagonals 0,4,8/2,4,6. -/
def winningTriples : List (List Nat) :=
  [[0, 1, 2], [3, 4, 5], [6, 7, 8],
   [0, 3, 6], [1, 4, 7], [2, 5, 8],
   [0, 4, 8], [2, 4, 6]]

/-- Whether the candidate mark occupies all three cells of a line. -/
def markTakesLine (cells : List Char) (t : List Nat) (m : Mark) : Bool :=
  t.all (fun i => cells.getD i ' ' == m.symbol)

/-- Inner loop of the spec's winner algorithm: marks in the fixed order
Cross then Naught, first full match wins. -/
def scanMarks (cells : List Char) (t : List Nat) : List Mark → Option Mark
  | [] => none
  | m :: ms => if markTakesLine cells t m then some m else scanMarks cells t ms

/-- Outer loop of the spec's winner algorithm: patterns in the fixed
order, first pattern/mark pair that matches determines the result. -/
def scanTriples (cells : List Char) : List (List Nat) → Option (Mark × List Nat)
  | [] => none
  | t :: ts =>
      match scanMarks cells t marksInOrder with
      | some m => some (m, t)
      | none => scanTriples cells ts

/-- Modelled from the spec: GameState.winner with the intended full scan
over all eight patterns and both marks (the source's early `return []`
defect is excluded by the spec's own design note). -/
def winner (s : GameState) : Option Mark :=
  (scanTriples s.grid.cells winningTriples).map Prod.fst

/-- Modelled from the spec: winning_cells, the three cell indices of the
winning line when a winner exists, empty otherwise. -/
def winning_cells (s : GameState) : List Nat :=
  ((scanTriples s.grid.cells winningTriples).map Prod.snd).getD []

/-- Modelled from the spec: tie is "true iff no winner and zero empty cells". -/
def tie (s : GameState) : Bool :=
  (winner s).isNone && (s.grid.empty_count == 0)

/-- Modelled from the spec: game_over is "true iff a winner exists or tie
is true". -/
def game_over (s : GameState) : Bool :=
  (winner s).isSome || tie s

/-- Modelled from the spec: current_mark is starting_mark when the cross
and naught counts agree, else the opposite mark. -/
def current_mark (s : GameState) : Mark :=
  if s.grid.x_count = s.grid.o_count then s.starting_mark else other s.starting_mark

/-- Modelled from the spec: Grid.with_cell, absent from the repository's
code: "returns a new Grid equal to self except cell index is set to mark". -/
def with_cell (g : Grid) (i : Nat) (m : Mark) : Grid :=
  ⟨g.cells.set i m.symbol⟩

/-- The error kinds of make_move, from the spec's error handling design. -/
inductive MoveError where
  | GameOver
  | CellOccupied
  | InvalidCell
deriving DecidableEq, Repr

/-- Modelled from the spec: GameState.make_move, absent from the
repository's code.  Fails with GameOver if game_over() is already true,
with InvalidCell if the index is outside 0..8, with CellOccupied if the
target cell is not empty; on success builds the new grid via
with_cell(cell_index, current_mark()), wraps it in a new GameState with
the same starting_mark, and returns it with the Move record. -/
def make_move (s : GameState) (cell_index : Nat) : Except MoveError (GameState × Move) :=
  if game_over s then Except.error MoveError.GameOver
  else if 9 ≤ cell_index then Except.error MoveError.InvalidCell
  else if s.grid.cells.getD cell_index ' ' ≠ ' ' then Except.error MoveError.CellOccupied
  else
    let newState : GameState := ⟨with_cell s.grid cell_index (current_mark s), s.starting_mark⟩
    Except.ok (newState, ⟨current_mark s, cell_index, s, newState⟩)

end Spec

/-- A model of functools.cached_property for `winner`: the cache is empty
until the first access, which stores the computed value; later accesses
return the stored value without recomputing. -/
structure CacheState where
  winnerCache : Option (Option (List Nat))
deriving DecidableEq, Repr

/-- One access of the memoized `winner` property: return the cached value
if present, otherwise compute `GameState.winner`, cache it and return it. -/
def winnerMemo (s : GameState) (c : CacheState) : Option (List Nat) × CacheState :=
  match c.winnerCache with
  | some v => (v, c)
  | none => (GameState.winner s, ⟨some (GameState.winner s)⟩)

/-- Auxiliary: over a list whose characters are all X, O or space, the
three character counts sum to the length. -/
theorem count_xos (l : List Char) (h : ∀ c ∈ l, c = 'X' ∨ c = 'O' ∨ c = ' ') :
    l.count 'X' + l.count 'O' + l.count ' ' = l.length := by
  induction l with
  | nil => simp
  | cons a t ih =>
    have ha := h a (List.mem_cons_self a t)
    have ih2 := ih (fun c hc => h c (List.mem_cons_of_mem a hc))
    rcases ha with h1 | h1 | h1 <;> subst h1 <;>
      simp [List.count_cons] <;> omega

/-- C1: the claim says winner scans all 8 line patterns for both marks and
returns the fully-occupying mark with its 3 winning cells.  The code does
not: its `return []` sits inside the inner loop, so only the first
pattern/mark pair (top row, Cross) is ever examined, and the value
returned on a match is the cell-index list, not the mark.  On the grid
"OO XXX   ", whose middle row is all Cross, the code finds no winner
(it returns the empty list) while the spec's full scan yields Cross with
winning cells [3, 4, 5]; on "XXX      " the code happens to return
[0, 1, 2]. -/
theorem C1_winner_scan_code_vs_spec :
    GameState.winner ⟨⟨"OO XXX   ".toList⟩, Mark.CROSS⟩ = some [] ∧
    Spec.winner ⟨⟨"OO XXX   ".toList⟩, Mark.CROSS⟩ = some Mark.CROSS ∧
    Spec.winning_cells ⟨⟨"OO XXX   ".toList⟩, Mark.CROSS⟩ = [3, 4, 5] ∧
    GameState.winner ⟨⟨"XXX      ".toList⟩, Mark.CROSS⟩ = some [0, 1, 2] ∧
    Spec.winner ⟨⟨"XXX      ".toList⟩, Mark.CROSS⟩ = some Mark.CROSS ∧
    Spec.winning_cells ⟨⟨"XXX      ".toList⟩, Mark.CROSS⟩ = [0, 1, 2] :=
  ⟨rfl, rfl, rfl, rfl, rfl, rfl⟩

/-- C2: make_move (modelled from the spec, the repository's code has no
such method) fails with GameOver when game_over() is already true, with
InvalidCell when the index is outside 0..8, with CellOccupied when the
target cell is not empty, and on success returns the new GameState whose
grid is the old grid with current_mark() written at cell_index, together
with the Move recording before_state, after_state, mark and cell_index;
the old state is untouched. -/
theorem C2_make_move_correct (s : GameState) (i : Nat) :
    (Spec.game_over s = true → Spec.make_move s i = Except.error Spec.MoveError.GameOver) ∧
    (Spec.game_over s = false → 9 ≤ i →
      Spec.make_move s i = Except.error Spec.MoveError.InvalidCell) ∧
    (Spec.game_over s = false → i < 9 → s.grid.cells.getD i ' ' ≠ ' ' →
      Spec.make_move s i = Except.error Spec.MoveError.CellOccupied) ∧
    (Spec.game_over s = false → i < 9 → s.grid.cells.getD i ' ' = ' ' →
      Spec.make_move s i =
        Except.ok (⟨Spec.with_cell s.grid i (Spec.current_mark s), s.starting_mark⟩,
          ⟨Spec.current_mark s, i, s,
           ⟨Spec.with_cell s.grid i (Spec.current_mark s), s.starting_mark⟩⟩)) := by
  refine ⟨?_, ?_, ?_, ?_⟩
  · intro h
    unfold Spec.make_move
    rw [if_pos h]
  · intro h hi
    unfold Spec.make_move
    rw [if_neg (by simp [h]), if_pos hi]
  · intro h hi hocc
    unfold Spec.make_move
    rw [if_neg (by simp [h]), if_neg (Nat.not_le.mpr hi), if_pos hocc]
  · intro h hi hemp
    unfold Spec.make_move
    rw [if_neg (by simp [h]), if_neg (Nat.not_le.mpr hi), if_neg (fun hn => hn hemp)]

/-- Witness for C2: from the empty grid with Cross to move, make_move 0
succeeds and produces exactly the described state and Move record. -/
theorem C2_make_move_witness :
    Spec.make_move ⟨⟨defaultCells⟩, Mark.CROSS⟩ 0 =
      Except.ok
        (⟨Spec.with_cell ⟨defaultCells⟩ 0 (Spec.current_mark ⟨⟨defaultCells⟩, Mark.CROSS⟩),
            Mark.CROSS⟩,
         ⟨Spec.current_mark ⟨⟨defaultCells⟩, Mark.CROSS⟩, 0, ⟨⟨defaultCells⟩, Mark.CROSS⟩,
          ⟨Spec.with_cell ⟨defaultCells⟩ 0 (Spec.current_mark ⟨⟨defaultCells⟩, Mark.CROSS⟩),
             Mark.CROSS⟩⟩) :=
  (C2_make_move_correct ⟨⟨defaultCells⟩, Mark.CROSS⟩ 0).2.2.2 (by decide) (by decide) (by decide)

/-- C3: the claim says other maps each mark to the opposite mark.  The
code compares the StrEnum member (whose string value is "X" or "O") with
the literal string "Mark.NAUGHT", which is never equal, so other returns
NAUGHT for both members: other(Cross) = Naught matches the claim but
other(Naught) = Naught contradicts it; the spec-modelled version returns
Cross there. -/
theorem C3_other_constant_naught :
    Mark.other Mark.CROSS = Mark.NAUGHT ∧
    Mark.other Mark.NAUGHT = Mark.NAUGHT ∧
    Spec.other Mark.NAUGHT = Mark.CROSS :=
  ⟨rfl, rfl, rfl⟩

/-- C4: the claim says Grid construction fails with InvalidGrid on any
input that is not 9 valid symbols.  The validation method is misnamed
`_post_init__`, which dataclasses never invoke, so construction always
succeeds: the empty string and a string of nine Zs are both accepted by
the code, while the spec-modelled validation rejects them. -/
theorem C4_grid_validation_never_runs :
    Grid.new "".toList = Except.ok ⟨"".toList⟩ ∧
    Grid.new "ZZZZZZZZZ".toList = Except.ok ⟨"ZZZZZZZZZ".toList⟩ ∧
    Grid.newSpec "".toList = Except.error GridError.InvalidGrid ∧
    Grid.newSpec "ZZZZZZZZZ".toList = Except.error GridError.InvalidGrid ∧
    Grid.newSpec "XOXOXOXOX".toList = Except.ok ⟨"XOXOXOXOX".toList⟩ :=
  ⟨rfl, rfl, rfl, rfl, rfl⟩

/-- Auxiliary for C5: the inner mark loop of winner always returns on its
first iteration (Cross), either the winning cells or the empty list. -/
theorem innerMarkScan_marks_isSome (cells pat : List Char) :
    (innerMarkScan cells pat marksInOrder).isSome = true := by
  rw [show marksInOrder = Mark.CROSS :: [Mark.NAUGHT] from rfl]
  simp only [innerMarkScan]
  split <;> rfl

/-- Auxiliary for C5: with at least one pattern to scan, winner returns a
list; Python's implicit None is unreachable. -/
theorem winnerScan_cons_ne_none (cells p : List Char) (ps : List (List Char)) :
    winnerScan cells (p :: ps) ≠ none := by
  have h1 := innerMarkScan_marks_isSome cells p
  simp only [winnerScan]
  cases hins : innerMarkScan cells p marksInOrder with
  | none => rw [hins] at h1; simp at h1
  | some r => simp

/-- C5 counterexample: the claim's scenario is false.  On the full grid
"XOXOXOXOX" the code's tie() is False, and the grid is not even a no-line
grid: Cross occupies the 0,4,8 diagonal, so the spec's own intended full
scan also yields winner Cross and tie false. -/
theorem C5_scenario_counterexample :
    GameState.tie ⟨⟨"XOXOXOXOX".toList⟩, Mark.CROSS⟩ = false ∧
    Spec.winner ⟨⟨"XOXOXOXOX".toList⟩, Mark.CROSS⟩ = some Mark.CROSS ∧
    Spec.winning_cells ⟨⟨"XOXOXOXOX".toList⟩, Mark.CROSS⟩ = [0, 4, 8] ∧
    Spec.tie ⟨⟨"XOXOXOXOX".toList⟩, Mark.CROSS⟩ = false := by
  refine ⟨rfl, ?_, ?_, ?_⟩ <;> decide

/-- C5 (amended): in the code, tie is true iff winner() is None and the
grid has zero empty cells, and game_over is true iff winner() is not None
or tie is true; but winner() always returns a list (never None), so tie
is false for every state; on the full grid "XOXOXOXOX" — which is not a
no-line grid, Cross holds the 0,4,8 diagonal — winner() returns the empty
list, tie is false and game_over is true. -/
theorem C5_tie_game_over_amended (s : GameState) :
    (GameState.tie s = true ↔ GameState.winner s = none ∧ s.grid.empty_count = 0) ∧
    (GameState.game_over s = true ↔ GameState.winner s ≠ none ∨ GameState.tie s = true) ∧
    GameState.winner s ≠ none ∧
    GameState.tie s = false ∧
    GameState.winner ⟨⟨"XOXOXOXOX".toList⟩, Mark.CROSS⟩ = some [] ∧
    GameState.game_over ⟨⟨"XOXOXOXOX".toList⟩, Mark.CROSS⟩ = true := by
  have hw : GameState.winner s ≠ none :=
    winnerScan_cons_ne_none s.grid.cells ("???......".toList)
      ["...???...".toList, "......???".toList, "?..?..?..".toList, ".?..?..?.".toList,
       "..?..?..?".toList, "?...?...?".toList, "..?.?.?..".toList]
  have ht : GameState.tie s = false := by
    unfold GameState.tie
    rcases Option.ne_none_iff_exists.mp hw with ⟨v, hv⟩
    rw [← hv]
    rfl
  refine ⟨?_, ?_, hw, ht, rfl, rfl⟩
  · unfold GameState.tie
    simp [Option.isNone_iff_eq_none]
  · unfold GameState.game_over
    simp [GameState.tie, Option.isSome_iff_ne_none]

/-- C6: the claim says the empty grid with the default starting mark has
game_not_started true, current_mark Cross and game_over false.  The first
two hold in the code, but game_over is true on the empty grid: winner
returns the empty list, which is not None, so `winner is not None` holds;
the spec-modelled game_over is false there. -/
theorem C6_empty_grid_game_over :
    GameState.game_not_started ⟨⟨defaultCells⟩, defaultStartingMark⟩ = true ∧
    GameState.curr_mark ⟨⟨defaultCells⟩, defaultStartingMark⟩ = Mark.CROSS ∧
    GameState.game_over ⟨⟨defaultCells⟩, defaultStartingMark⟩ = true ∧
    Spec.game_over ⟨⟨defaultCells⟩, defaultStartingMark⟩ = false :=
  ⟨rfl, rfl, rfl, rfl⟩

/-- C7: the claim says current_mark is starting_mark when the counts
agree and the opposite mark otherwise, for both starting marks.  With
starting mark Naught and one more X than O the code returns
Naught.other = Naught (the broken other), while the claim requires
Cross; the spec-modelled current_mark returns Cross. -/
theorem C7_curr_mark_naught_start :
    GameState.curr_mark ⟨⟨"X        ".toList⟩, Mark.NAUGHT⟩ = Mark.NAUGHT ∧
    Spec.current_mark ⟨⟨"X        ".toList⟩, Mark.NAUGHT⟩ = Mark.CROSS ∧
    GameState.curr_mark ⟨⟨"X        ".toList⟩, Mark.CROSS⟩ = Mark.NAUGHT :=
  ⟨rfl, rfl, rfl⟩

/-- C8: two accesses of winner on the same GameState yield identical
results, and the memoization of cached_property does not change the
observable output: the first access from a fresh cache returns exactly
`GameState.winner s`, and a second access returns the same value again. -/
theorem C8_winner_idempotent (s : GameState) :
    (winnerMemo s ⟨none⟩).1 = GameState.winner s ∧
    (winnerMemo s (winnerMemo s ⟨none⟩).2).1 = (winnerMemo s ⟨none⟩).1 :=
  ⟨rfl, rfl⟩

/-- C10: for a grid of nine cells each drawn from X, O, space, the three
counts sum to the board size 9. -/
theorem C10_counts_sum (g : Grid) (h9 : g.cells.length = 9)
    (hv : ∀ c ∈ g.cells, c = 'X' ∨ c = 'O' ∨ c = ' ') :
    g.x_count + g.o_count + g.empty_count = 9 := by
  unfold Grid.x_count Grid.o_count Grid.empty_count
  rw [count_xos g.cells hv, h9]

/-- Witness for C10: the counts of the concrete full board "XOXOXOXOX"
sum to 9. -/
theorem C10_counts_sum_witness :
    Grid.x_count ⟨"XOXOXOXOX".toList⟩ + Grid.o_count ⟨"XOXOXOXOX".toList⟩ +
      Grid.empty_count ⟨"XOXOXOXOX".toList⟩ = 9 :=
  C10_counts_sum ⟨"XOXOXOXOX".toList⟩ (by decide) (by decide)

end TicTacToe
